import Mathlib

/-! cpp-private-call-hijack: a shallow embedding of the demonstration programs

The repository consists of small C++ programs (`step1.cpp`, `step3.cpp`, `step4.cpp`)
and one header (`Hijack.h`).  Every function in them is single-threaded and acts only on
`std::cout`, so a function `void f(T& x)` is embedded as a Lean function
`T → World → T × World`, where `World` carries the characters written to `std::cout`
so far.

* `std::cout << s` appends `s`; `std::endl` appends a newline (flushing leaves the text
  unchanged); `std::cout << i` for an `int` appends its decimal digits.
* A pointer to member function `void (C::*)(A)` is the Lean function it points to;
  `(obj.*p)(a)` is application.
* A class template with a non-type parameter `p` is a Lean definition taking `p` as an
  argument; a `typename` parameter is a `Type` argument, and `decltype(e)` is the type of `e`.
* `World.calls` is a ghost log: every member function body records its qualified name on
  entry.  It plays no part in what the programs print.

Access control (`private`, `friend`) is enforced by the compiler and has no run-time
content; the embedding describes the programs as they run.
-/

namespace PrivateCallHijack

/-! ## Console and ghost call log -/

/-- State threaded through every function: the text on `std::cout`, and the ghost log of
member functions entered so far. -/
structure World where
  cout : String
  calls : List String
deriving DecidableEq, Repr

/-- The state in which a program starts: nothing written, nothing called. -/
def World.initial : World := ⟨"", []⟩

/-- Insertion `std::cout << s` of a string. -/
def World.put (σ : World) (s : String) : World :=
  { σ with cout := σ.cout ++ s }

/-- Insertion `std::cout << i` of an `int`. -/
def World.putInt (σ : World) (i : Int) : World :=
  σ.put (toString i)

/-- Manipulator `std::endl`: a newline. -/
def World.endl (σ : World) : World :=
  σ.put "\n"

/-- Ghost step taken on entry to the member function with qualified name `f`. -/
def World.enter (σ : World) (f : String) : World :=
  { σ with calls := σ.calls ++ [f] }

/-! ## Pointers to member functions -/

/-- The type `void (C::*)(A)`: a member function of `C` with argument list `A`. -/
abbrev MemFn (C A : Type) : Type := C → A → World → C × World

/-- The type of an expression, as `decltype(e)` gives it. -/
abbrev decltype {α : Type} (_ : α) : Type := α

/-- Types `F` whose values can stand on the right of `.*` with an object of class `C` and
an argument list `A`.  A template that only writes `(obj.*p)(a)` for `p : F` asks nothing
more of its type parameter `F`. -/
class MemberPointer (F : Type) (C A : outParam Type) where
  /-- The call `(obj.*p)(a)`. -/
  call : F → C → A → World → C × World

instance instMemberPointerMemFn (C A : Type) : MemberPointer (MemFn C A) C A where
  call p := p

/-! ## step1.cpp -/

namespace Step1

/-- Class `Widget` of step1.cpp: no data members. -/
structure Widget where
deriving DecidableEq, Repr

/-- Private `void Widget::forbidden()`: `std::cout << "im forbidden" << std::endl`. -/
def Widget.forbidden (self : Widget) (_ : Unit) (σ : World) : Widget × World :=
  (self, ((σ.enter "Widget::forbidden").put "im forbidden").endl)

/-- Public `static auto Widget::forbidden_fun()`: returns `&Widget::forbidden`. -/
def Widget.forbidden_fun : MemFn Widget Unit :=
  Widget.forbidden

/-- The free function `void hijack(Widget& w)` of step1.cpp. -/
def hijack (w : Widget) (σ : World) : Widget × World :=
  let forbidden_fun : MemFn Widget Unit := Widget.forbidden_fun
  forbidden_fun w () σ

/-- The entry point `main` of step1.cpp: returns 0. -/
def main (σ : World) : Int × World :=
  let w : Widget := {}
  let r := hijack w σ
  (0, r.2)

end Step1

/-! ## step3.cpp -/

namespace Step3

/-- Class `SpaceShip`: no data members. -/
structure SpaceShip where
deriving DecidableEq, Repr

/-- Public `void SpaceShip::dock(int i)`: `std::cout << "dock" << i << std::endl`. -/
def SpaceShip.dock (self : SpaceShip) (i : Int) (σ : World) : SpaceShip × World :=
  (self, (((σ.enter "SpaceShip::dock").put "dock").putInt i).endl)

/-- The alias `using SpaceShipFun = void (SpaceShip::*)(int)`. -/
abbrev SpaceShipFun : Type := MemFn SpaceShip Int

/-- Class template `SpaceStation<spaceship_fun>`: no data members. -/
structure SpaceStation (spaceship_fun : SpaceShipFun) where

/-- Constructor `SpaceStation()`: `SpaceShip ship; (ship.*spaceship_fun)(1);`. -/
def SpaceStation.ctor (spaceship_fun : SpaceShipFun) (σ : World) :
    SpaceStation spaceship_fun × World :=
  let ship : SpaceShip := {}
  let r := spaceship_fun ship 1 σ
  ({}, r.2)

/-- Class template `SpaceStation2<SpaceShipFun2, spaceship_fun>`: no data members. -/
structure SpaceStation2 (SpaceShipFun2 : Type) (spaceship_fun : SpaceShipFun2) where

/-- Constructor `SpaceStation2()`: `SpaceShip ship; (ship.*spaceship_fun)(2);`. -/
def SpaceStation2.ctor (SpaceShipFun2 : Type) [MemberPointer SpaceShipFun2 SpaceShip Int]
    (spaceship_fun : SpaceShipFun2) (σ : World) :
    SpaceStation2 SpaceShipFun2 spaceship_fun × World :=
  let ship : SpaceShip := {}
  let r := MemberPointer.call spaceship_fun ship 2 σ
  ({}, r.2)

/-- The function `void test1()`: constructs `space_station`, `space_station2` and
`space_station3` in this order. -/
def test1 (σ : World) : World :=
  let r1 := SpaceStation.ctor SpaceShip.dock σ
  let r2 := SpaceStation2.ctor (MemFn SpaceShip Int) SpaceShip.dock r1.2
  let r3 := SpaceStation2.ctor (decltype SpaceShip.dock) SpaceShip.dock r2.2
  r3.2

/-- Class `Widget` of step3.cpp: no data members. -/
structure Widget where
deriving DecidableEq, Repr

/-- Private `void Widget::forbidden()`: `std::cout << "im forbidden" << std::endl`. -/
def Widget.forbidden (self : Widget) (_ : Unit) (σ : World) : Widget × World :=
  (self, ((σ.enter "Widget::forbidden").put "im forbidden").endl)

/-- Struct template `HijackImpl<ForbiddenFun, forbidden_fun>`: no data members. -/
structure HijackImpl (ForbiddenFun : Type) (forbidden_fun : ForbiddenFun) where

/-- Static member `HijackImpl<ForbiddenFun, forbidden_fun>::apply(Widget& w)`:
`(w.*forbidden_fun)();`. -/
def HijackImpl.apply (ForbiddenFun : Type) [MemberPointer ForbiddenFun Widget Unit]
    (forbidden_fun : ForbiddenFun) (w : Widget) (σ : World) : Widget × World :=
  MemberPointer.call forbidden_fun w () σ

/-- The free function `void hijack(Widget& w)` of step3.cpp: every statement of its body
is commented out. -/
def hijack (w : Widget) (σ : World) : Widget × World :=
  (w, σ)

/-- The entry point `main` of step3.cpp: `test1(); return 1;`. -/
def main (σ : World) : Int × World :=
  let σ1 := test1 σ
  (1, σ1)

end Step3

/-! ## Hijack.h -/

namespace HijackH

/-- Modelled from the spec: `Widget.h`, which Hijack.h includes, is not among the source
files.  Hijack.h's file comment calls it "our original Widget example" with the private
member function `Widget::forbidden()`; the class is taken as step3.cpp defines it
(lines 70-76): no data members. -/
structure Widget where
deriving DecidableEq, Repr

/-- Modelled from the spec: private `void Widget::forbidden()` of the absent `Widget.h`,
with the body it has in step1.cpp and step3.cpp:
`std::cout << "im forbidden" << std::endl`. -/
def Widget.forbidden (self : Widget) (_ : Unit) (σ : World) : Widget × World :=
  (self, ((σ.enter "Widget::forbidden").put "im forbidden").endl)

/-- Class template `HijackImpl<ForbiddenFun, forbidden_fun>`: no data members. -/
structure HijackImpl (ForbiddenFun : Type) (forbidden_fun : ForbiddenFun) where

/-- The friend `void hijack(Widget& w)` defined inside
`HijackImpl<ForbiddenFun, forbidden_fun>`: `(w.*forbidden_fun)();`. -/
def HijackImpl.hijack (ForbiddenFun : Type) [MemberPointer ForbiddenFun Widget Unit]
    (forbidden_fun : ForbiddenFun) (w : Widget) (σ : World) : Widget × World :=
  MemberPointer.call forbidden_fun w () σ

/-- The namespace-scope `void hijack(Widget& w)`: declared at line 34 and defined by the
explicit instantiation
`template class HijackImpl<decltype(&Widget::forbidden), &Widget::forbidden>`. -/
def hijack (w : Widget) (σ : World) : Widget × World :=
  HijackImpl.hijack (decltype Widget.forbidden) Widget.forbidden w σ

end HijackH

/-! ## step4.cpp -/

namespace Step4

/-- Class `Gadget`: no data members. -/
structure Gadget where
deriving DecidableEq, Repr

/-- Private `void Gadget::internal()`: `std::cout << "Gadget" << std::endl`. -/
def Gadget.internal (self : Gadget) (_ : Unit) (σ : World) : Gadget × World :=
  (self, ((σ.enter "Gadget::internal").put "Gadget").endl)

/-- The free function `void frobnicate()`: `Gadget g; g.internal();`. -/
def frobnicate (σ : World) : World :=
  let g : Gadget := {}
  let r := g.internal () σ
  r.2

/-- Class `Gadget3`: no data members. -/
structure Gadget3 where
deriving DecidableEq, Repr

/-- Private `void Gadget3::internal()`: `std::cout << "Gadget3" << std::endl`. -/
def Gadget3.internal (self : Gadget3) (_ : Unit) (σ : World) : Gadget3 × World :=
  (self, ((σ.enter "Gadget3::internal").put "Gadget3").endl)

/-- The hidden friend `void frobnicate3(Gadget3& gadget)`: `gadget.internal();`. -/
def frobnicate3 (gadget : Gadget3) (σ : World) : Gadget3 × World :=
  gadget.internal () σ

/-- Class `Gadget4`: no data members. -/
structure Gadget4 where
deriving DecidableEq, Repr

/-- Private `void Gadget4::internal()`: `std::cout << "Gadget4" << std::endl`. -/
def Gadget4.internal (self : Gadget4) (_ : Unit) (σ : World) : Gadget4 × World :=
  (self, ((σ.enter "Gadget4::internal").put "Gadget4").endl)

/-- The friend `void frobnicate4()` defined inside `Gadget4` and declared at namespace
scope: `Gadget4 g; g.internal();`. -/
def frobnicate4 (σ : World) : World :=
  let g : Gadget4 := {}
  let r := g.internal () σ
  r.2

/-- Class template `SpookyAction<N>`: no data members. -/
structure SpookyAction (N : Int) where

/-- The friend `int observe()` defined inside `SpookyAction<N>`: `return N;`. -/
def SpookyAction.observe (N : Int) (σ : World) : Int × World :=
  (N, σ)

/-- The namespace-scope `int observe()`: declared at line 131 and defined by the
program's single instantiation of the template, `SpookyAction<42>`. -/
def observe (σ : World) : Int × World :=
  SpookyAction.observe 42 σ

/-- The entry point `main` of step4.cpp.  `frobnicate2` is never called (the call is
commented out) and `Gadget2::internal` has no body, so neither is embedded. -/
def main (σ : World) : Int × World :=
  let σ1 := frobnicate σ
  let g : Gadget3 := {}
  let r3 := frobnicate3 g σ1
  let σ4 := frobnicate4 r3.2
  let _temporary : SpookyAction 42 := {}
  let o := observe σ4
  let σ5 := (o.2.putInt o.1).put "\n"
  (1, σ5)

end Step4

/-! ## Shared lemmas -/

/-- Two insertions in a row write the concatenated text. -/
theorem World.put_put (σ : World) (s t : String) : (σ.put s).put t = σ.put (s ++ t) := by
  simp [World.put, String.append_assoc]

/-- The ghost step and an insertion act on different fields. -/
theorem World.put_enter (σ : World) (f s : String) :
    (σ.enter f).put s = ⟨σ.cout ++ s, σ.calls ++ [f]⟩ := by
  simp [World.put, World.enter]

/-- An insertion into an explicit state. -/
theorem World.put_mk (c : String) (l : List String) (s : String) :
    World.put ⟨c, l⟩ s = ⟨c ++ s, l⟩ := by
  simp [World.put]

/-- The body shared by the three `Widget::forbidden` definitions: one line of text and one
log entry. -/
theorem World.forbidden_body (σ : World) :
    ((σ.enter "Widget::forbidden").put "im forbidden").endl
      = ⟨σ.cout ++ "im forbidden\n", σ.calls ++ ["Widget::forbidden"]⟩ := by
  simp only [World.endl, World.put_enter, World.put_mk, String.append_assoc]
  rfl

/-- What `SpaceShip::dock(i)` does to the state. -/
theorem Step3.SpaceShip.dock_eq (ship : Step3.SpaceShip) (i : Int) (σ : World) :
    Step3.SpaceShip.dock ship i σ
      = (ship, ⟨σ.cout ++ ("dock" ++ toString i ++ "\n"), σ.calls ++ ["SpaceShip::dock"]⟩) := by
  simp only [Step3.SpaceShip.dock, World.endl, World.putInt, World.put_enter, World.put_mk,
    String.append_assoc]

/-- What `test1()` does to an arbitrary state. -/
theorem Step3.test1_eq (σ : World) :
    Step3.test1 σ = ⟨σ.cout ++ "dock1\ndock2\ndock2\n",
      σ.calls ++ ["SpaceShip::dock", "SpaceShip::dock", "SpaceShip::dock"]⟩ := by
  simp only [Step3.test1, Step3.SpaceStation.ctor, Step3.SpaceStation2.ctor,
    MemberPointer.call, Step3.SpaceShip.dock_eq, String.append_assoc, List.append_assoc]
  rfl

/-! ## Claims -/

/-- C1: in Hijack.h the friend defined inside `HijackImpl` invokes the baked-in member
function once on `w`, whatever that function is; for the explicit instantiation with
`&Widget::forbidden`, the namespace-scope `hijack(w)` is one call of `Widget::forbidden`
on `w`: it appends the one line "im forbidden" to the console, logs that single call, and
leaves `w` and everything else as they were. -/
theorem HijackH.hijack_calls_forbidden_once (w : HijackH.Widget) (σ : World) :
    (∀ f : MemFn HijackH.Widget Unit,
        HijackH.HijackImpl.hijack (MemFn HijackH.Widget Unit) f w σ = f w () σ) ∧
    HijackH.hijack w σ = HijackH.Widget.forbidden w () σ ∧
    HijackH.hijack w σ
      = (w, ⟨σ.cout ++ "im forbidden\n", σ.calls ++ ["Widget::forbidden"]⟩) := by
  refine ⟨fun f => rfl, rfl, ?_⟩
  simp only [HijackH.hijack, HijackH.HijackImpl.hijack, MemberPointer.call,
    HijackH.Widget.forbidden, World.forbidden_body]

/-- C2: in step4.cpp the `observe()` that the instantiation `SpookyAction<N>` defines
returns `N`, for every integer `N`, and touches nothing; the program's `observe()`, defined
by `SpookyAction<42>`, returns 42, and the last line `main` prints is "42". -/
theorem Step4.observe_returns_template_argument :
    (∀ (N : Int) (σ : World), Step4.SpookyAction.observe N σ = (N, σ)) ∧
    (∀ σ : World, Step4.observe σ = (42, σ)) ∧
    (∀ σ : World, (Step4.main σ).2.cout
        = (Step4.frobnicate4 (Step4.frobnicate3 {} (Step4.frobnicate σ)).2).cout ++ "42\n") ∧
    (Step4.main World.initial).2.cout = "Gadget\nGadget3\nGadget4\n" ++ "42\n" := by
  refine ⟨fun N σ => rfl, fun σ => rfl, fun σ => ?_, by decide⟩
  simp only [Step4.main, Step4.observe, Step4.SpookyAction.observe, World.putInt,
    World.put_put]
  rfl

/-- C3: in step1.cpp `hijack(w)` calls the pointer that `Widget::forbidden_fun()` returns
on `w`, which is one call of the private `Widget::forbidden()` on `w`: the console grows
by the one line "im forbidden", that single call is logged, and `w` is unchanged. -/
theorem Step1.hijack_is_one_forbidden_call (w : Step1.Widget) (σ : World) :
    Step1.hijack w σ = Step1.Widget.forbidden_fun w () σ ∧
    Step1.hijack w σ = Step1.Widget.forbidden w () σ ∧
    Step1.hijack w σ
      = (w, ⟨σ.cout ++ "im forbidden\n", σ.calls ++ ["Widget::forbidden"]⟩) := by
  refine ⟨rfl, rfl, ?_⟩
  simp only [Step1.hijack, Step1.Widget.forbidden_fun, Step1.Widget.forbidden,
    World.forbidden_body]

/-- C4: step4.cpp's `main` writes the four lines "Gadget", "Gadget3", "Gadget4", "42" in
this order after whatever the console held, enters the three `internal` member functions
in that order, and returns 1; run from the initial state, the console holds exactly those
four lines. -/
theorem Step4.main_prints_four_lines :
    (∀ σ : World, Step4.main σ
        = (1, ⟨σ.cout ++ "Gadget\nGadget3\nGadget4\n42\n",
               σ.calls ++ ["Gadget::internal", "Gadget3::internal", "Gadget4::internal"]⟩)) ∧
    Step4.main World.initial
      = (1, ⟨"Gadget\nGadget3\nGadget4\n42\n",
             ["Gadget::internal", "Gadget3::internal", "Gadget4::internal"]⟩) := by
  refine ⟨fun σ => ?_, by decide⟩
  simp only [Step4.main, Step4.frobnicate, Step4.frobnicate3, Step4.frobnicate4,
    Step4.observe, Step4.SpookyAction.observe, Step4.Gadget.internal,
    Step4.Gadget3.internal, Step4.Gadget4.internal, World.endl, World.putInt,
    World.put_put, World.put_enter, World.put_mk, String.append_assoc, List.append_assoc]
  rfl

/-- C5: in step3.cpp the member-function pointer passed as template argument is the
function the constructor invokes: `SpaceStation<f>` calls `f` with 1 and `SpaceStation2`
calls its pointer with 2, once, on a fresh `SpaceShip`; the two `SpaceStation2`
instantiations of `test1` (type spelled out, type from `decltype`) are the same function;
and `test1()` prints the three lines "dock1", "dock2", "dock2" in this order. -/
theorem Step3.test1_prints_dock_lines :
    (∀ (f : Step3.SpaceShipFun) (σ : World),
        (Step3.SpaceStation.ctor f σ).2 = (f {} 1 σ).2) ∧
    (∀ (f : Step3.SpaceShipFun) (σ : World),
        (Step3.SpaceStation2.ctor (MemFn Step3.SpaceShip Int) f σ).2 = (f {} 2 σ).2) ∧
    (∀ σ : World, (Step3.SpaceStation.ctor Step3.SpaceShip.dock σ).2
        = (Step3.SpaceShip.dock {} 1 σ).2) ∧
    (∀ σ : World,
        Step3.SpaceStation2.ctor (MemFn Step3.SpaceShip Int) Step3.SpaceShip.dock σ
          = Step3.SpaceStation2.ctor (decltype Step3.SpaceShip.dock) Step3.SpaceShip.dock σ ∧
        (Step3.SpaceStation2.ctor (decltype Step3.SpaceShip.dock) Step3.SpaceShip.dock σ).2
          = (Step3.SpaceShip.dock {} 2 σ).2) ∧
    (∀ σ : World, Step3.test1 σ
        = ⟨σ.cout ++ "dock1\ndock2\ndock2\n",
           σ.calls ++ ["SpaceShip::dock", "SpaceShip::dock", "SpaceShip::dock"]⟩) ∧
    Step3.test1 World.initial
      = ⟨"dock1\ndock2\ndock2\n", ["SpaceShip::dock", "SpaceShip::dock", "SpaceShip::dock"]⟩ := by
  exact ⟨fun f σ => rfl, fun f σ => rfl, fun σ => rfl, fun σ => ⟨rfl, rfl⟩,
    Step3.test1_eq, by decide⟩

/-- C7: the three hijack mechanisms agree.  Hijack.h's `hijack(w)`, step1.cpp's
`hijack(w)` and step3.cpp's
`HijackImpl<decltype(&Widget::forbidden), &Widget::forbidden>::apply(w)` each equal one
direct call of `forbidden()` on their `Widget`; from the same state they leave the same
console text and the same call log, and each leaves its `w` as it was. -/
theorem hijack_mechanisms_agree (wh : HijackH.Widget) (w1 : Step1.Widget)
    (w3 : Step3.Widget) (σ : World) :
    HijackH.hijack wh σ = HijackH.Widget.forbidden wh () σ ∧
    Step1.hijack w1 σ = Step1.Widget.forbidden w1 () σ ∧
    Step3.HijackImpl.apply (decltype Step3.Widget.forbidden) Step3.Widget.forbidden w3 σ
      = Step3.Widget.forbidden w3 () σ ∧
    (HijackH.hijack wh σ).2 = (Step1.hijack w1 σ).2 ∧
    (Step1.hijack w1 σ).2
      = (Step3.HijackImpl.apply (decltype Step3.Widget.forbidden)
          Step3.Widget.forbidden w3 σ).2 ∧
    (Step1.hijack w1 σ).2
      = ⟨σ.cout ++ "im forbidden\n", σ.calls ++ ["Widget::forbidden"]⟩ ∧
    (HijackH.hijack wh σ).1 = wh ∧
    (Step1.hijack w1 σ).1 = w1 ∧
    (Step3.HijackImpl.apply (decltype Step3.Widget.forbidden)
      Step3.Widget.forbidden w3 σ).1 = w3 := by
  refine ⟨rfl, rfl, rfl, rfl, rfl, ?_, rfl, rfl, rfl⟩
  simp only [Step1.hijack, Step1.Widget.forbidden_fun, Step1.Widget.forbidden,
    World.forbidden_body]

/-- C8: step3.cpp's free function `hijack` is a no-op: `hijack(w)` returns with `w`, the
console and the call log untouched.  A run of step3's `main` writes only the three dock
lines, which do not contain "im forbidden", and never enters `Widget::forbidden`. -/
theorem Step3.hijack_is_noop :
    (∀ (w : Step3.Widget) (σ : World), Step3.hijack w σ = (w, σ)) ∧
    (∀ σ : World, Step3.main σ
        = (1, ⟨σ.cout ++ "dock1\ndock2\ndock2\n",
               σ.calls ++ ["SpaceShip::dock", "SpaceShip::dock", "SpaceShip::dock"]⟩)) ∧
    ¬ ("im forbidden".data <:+: "dock1\ndock2\ndock2\n".data) ∧
    ¬ ("im forbidden".data <:+: (Step3.main World.initial).2.cout.data) ∧
    "Widget::forbidden" ∉ (Step3.main World.initial).2.calls := by
  refine ⟨fun w σ => rfl, fun σ => ?_, by decide, by decide, by decide⟩
  simp only [Step3.main, Step3.test1_eq]

end PrivateCallHijack
